import Mathlib

/-!
# HTML2PDF: the `/convert` and `/health` handlers of `index.js` and `server.js`

A shallow embedding of the two Express handlers.  The browser (Puppeteer), the
clock (`Date.now`) and the HTTP response object are the environment of a
request:

* every Puppeteer call of one request has a fixed outcome (`Env`): it returns
  or it throws an error with a message;
* `Date.now()` is a stream of readings, `Env.now k` being the value of the
  `k`-th call made while the request is handled;
* the response object is the mutable part (`World`): status code, the headers
  set by the handler, and every body handed to `res.send` / `res.json`;
  `res.setHeader` throws, as in Node, for a value with a character that a
  header may not hold, and any write after the response was sent throws.

The request body is the parsed JSON object `req.body`, with `html` and
`filename` typed as the API documents them (absent or a string) and `options`
an arbitrary JSON value.  `console.log` / `console.error` lines are left out.
-/

namespace HTML2PDF

/-! ## JavaScript values -/

/-- A parsed JSON value.  An object is the list of its own properties. -/
inductive JVal where
  | null
  | bool (b : Bool)
  | num (n : Int)
  | str (s : String)
  | arr (items : List JVal)
  | obj (fields : List (String × JVal))

/-- JavaScript `ToBoolean` on a JSON value. -/
def JVal.truthy : JVal → Bool
  | .null => false
  | .bool b => b
  | .num n => n != 0
  | .str s => s != ""
  | .arr _ => true
  | .obj _ => true

/-- Message of the `TypeError` V8 raises for `null.key`. -/
def nullReadMessage (key : String) : String :=
  "Cannot read properties of null (reading \x27" ++ key ++ "\x27)"

/-- Property read `v.key` for the keys the handlers use: `null.key` throws
a `TypeError`, an object yields its own property or `undefined` (`none`),
every other JSON value yields `undefined`. -/
def JVal.getProp (v : JVal) (key : String) : Except String (Option JVal) :=
  match v with
  | .null => .error (nullReadMessage key)
  | .obj fields => .ok (fields.lookup key)
  | _ => .ok none

/-- JavaScript `x || d` where `x` may be `undefined`. -/
def orDefault (x : Option JVal) (d : JVal) : JVal :=
  match x with
  | some v => if v.truthy then v else d
  | none => d

/-- JavaScript `x !== false` where `x` may be `undefined`. -/
def notFalse (x : Option JVal) : Bool :=
  match x with
  | some (.bool false) => false
  | _ => true

/-- JavaScript `!s` for `s` that is `undefined` or a string. -/
def falsy (s : Option String) : Bool :=
  match s with
  | none => true
  | some s => s == ""

/-! ## Data model -/

/-- The `margin` member of the object passed to `page.pdf`. -/
structure Margin where
  top : JVal
  right : JVal
  bottom : JVal
  left : JVal

/-- The object passed to `page.pdf`.  `displayHeaderFooter` is only set by
`server.js`. -/
structure PdfOptions where
  format : JVal
  margin : Margin
  printBackground : Bool
  preferCSSPageSize : Bool
  displayHeaderFooter : Option Bool

/-- The body of a `POST /convert` request (`req.body`). -/
structure Request where
  html : Option String
  filename : Option String
  options : Option JVal

/-- The bytes of a `Buffer`. -/
abbrev Buffer := List Nat

/-- A call on the browser or on the page, with its arguments. -/
inductive Call where
  | newPage
  | setViewport (width height deviceScaleFactor : Nat)
  | setContent (html : Option String) (waitUntil : List String) (timeout : Nat)
  | pdf (options : PdfOptions)
  | close

/-- The five renderer operations. -/
inductive StepName where
  | newPage | setViewport | setContent | pdf | close
  deriving DecidableEq, Repr

/-- The operation a call belongs to. -/
def Call.step : Call → StepName
  | .newPage => .newPage
  | .setViewport _ _ _ => .setViewport
  | .setContent _ _ _ => .setContent
  | .pdf _ => .pdf
  | .close => .close

/-- A renderer call that was made, and whether it returned (`true`) or threw. -/
structure Event where
  call : Call
  returned : Bool

/-- The body handed to `res.send` (a buffer) or `res.json` (an object). -/
inductive Body where
  | pdf (bytes : Buffer)
  | json (fields : List (String × JVal))

/-- One call of `res.send` / `res.json`: the status code and the headers the
handler had set at that moment, and the body. -/
structure Response where
  status : Nat
  headers : List (String × String)
  body : Body

/-- Outcome of a renderer call that returns nothing. -/
inductive Step where
  | ok
  | throws (message : String)

/-- Outcome of `page.pdf`. -/
inductive PdfStep where
  | ok (bytes : Buffer)
  | throws (message : String)

/-- The global `browser` variable: `null` until `puppeteer.launch` resolved. -/
inductive BrowserVar where
  | null
  | launched
  deriving DecidableEq, Repr

/-- Everything a request reads from outside the handler. -/
structure Env where
  browser : BrowserVar
  now : Nat → Int
  newPage : Step
  setViewport : Step
  setContent : Step
  pdf : PdfStep
  close : Step

/-- What a request changes: the clock position, the renderer calls made so
far, and the response object. -/
structure World where
  reads : Nat
  calls : List Event
  statusCode : Nat
  headers : List (String × String)
  attempts : List Response

/-- A computation that may throw an error message and changes the world; the
world survives a throw. -/
def M (α : Type) : Type := World → Except String α × World

instance : Monad M where
  pure a := fun w => (.ok a, w)
  bind x f := fun w =>
    match x w with
    | (.ok a, w1) => f a w1
    | (.error e, w1) => (.error e, w1)

/-- JavaScript `throw`. -/
def raise {α : Type} (message : String) : M α := fun w => (.error message, w)

/-- Lift a pure computation that may throw. -/
def liftExcept {α : Type} (x : Except String α) : M α := fun w => (x, w)

/-- JavaScript `try { body } catch (error) { handler }`, `error.message` being
what the handler receives. -/
def tryCatch {α : Type} (body : M α) (handler : String → M α) : M α := fun w =>
  match body w with
  | (.ok a, w1) => (.ok a, w1)
  | (.error e, w1) => handler e w1

/-- JavaScript `try { body } finally { cleanup }`: the cleanup always runs, and
an error thrown by it replaces the result of the body. -/
def tryFinally {α : Type} (body : M α) (cleanup : M Unit) : M α := fun w =>
  match body w with
  | (r, w1) =>
    match cleanup w1 with
    | (.ok _, w2) => (r, w2)
    | (.error e, w2) => (.error e, w2)

/-! ## Environment operations -/

/-- The call `Date.now()`. -/
def dateNow (env : Env) : M Int := fun w =>
  (.ok (env.now w.reads), { w with reads := w.reads + 1 })

/-- Record a renderer call and return or throw as the environment says. -/
def rendererCall (c : Call) (s : Step) : M Unit := fun w =>
  match s with
  | .ok => (.ok (), { w with calls := w.calls ++ [⟨c, true⟩] })
  | .throws m => (.error m, { w with calls := w.calls ++ [⟨c, false⟩] })

/-- The call `browser.newPage()`: a `TypeError` when `browser` is `null`. -/
def browserNewPage (env : Env) : M Unit :=
  match env.browser with
  | .null => raise (nullReadMessage "newPage")
  | .launched => rendererCall .newPage env.newPage

/-- The call `page.setViewport({width, height, deviceScaleFactor})`. -/
def pageSetViewport (env : Env) (width height deviceScaleFactor : Nat) : M Unit :=
  rendererCall (.setViewport width height deviceScaleFactor) env.setViewport

/-- The call `page.setContent(html, {waitUntil, timeout})`. -/
def pageSetContent (env : Env) (html : Option String) (waitUntil : List String)
    (timeout : Nat) : M Unit :=
  rendererCall (.setContent html waitUntil timeout) env.setContent

/-- The call `page.pdf(pdfOptions)`. -/
def pagePdf (env : Env) (pdfOptions : PdfOptions) : M Buffer := fun w =>
  match env.pdf with
  | .ok bytes => (.ok bytes, { w with calls := w.calls ++ [⟨.pdf pdfOptions, true⟩] })
  | .throws m => (.error m, { w with calls := w.calls ++ [⟨.pdf pdfOptions, false⟩] })

/-- The call `page.close()`. -/
def pageClose (env : Env) : M Unit :=
  rendererCall .close env.close

/-- Replace the value of a header, or add the header. -/
def setHeaderIn (headers : List (String × String)) (name value : String) :
    List (String × String) :=
  match headers with
  | [] => [(name, value)]
  | (n, v) :: rest =>
    if n == name then (n, value) :: rest else (n, v) :: setHeaderIn rest name value

/-- A character Node accepts in a header value: a tab, or a character from
U+0020 to U+007E or from U+0080 to U+00FF. -/
def headerCharOk (c : Char) : Bool :=
  c.toNat == 9 || (32 ≤ c.toNat && c.toNat ≤ 126) || (128 ≤ c.toNat && c.toNat ≤ 255)

/-- Node accepts the header value: every character is acceptable. -/
def headerValueOk (value : String) : Bool :=
  value.toList.all headerCharOk

/-- Message of the `TypeError` Node raises for a header value it refuses. -/
def invalidCharMessage (name : String) : String :=
  "Invalid character in header content [\"" ++ name ++ "\"]"

/-- Message of the error Node raises when a response is written twice. -/
def headersSentMessage : String :=
  "Cannot set headers after they are sent to the client"

/-- The call `res.setHeader(name, value)`.  Node throws when the response was
already sent and when the value holds a character it does not accept. -/
def resSetHeader (name value : String) : M Unit := fun w =>
  if !w.attempts.isEmpty then (.error headersSentMessage, w)
  else if headerValueOk value then
    (.ok (), { w with headers := setHeaderIn w.headers name value })
  else (.error (invalidCharMessage name), w)

/-- The call `res.status(code)`. -/
def resStatus (code : Nat) : M Unit := fun w =>
  (.ok (), { w with statusCode := code })

/-- Hand a body to the response.  The first body is what the client receives;
once a response has been sent, Node refuses the headers of another one and
the call throws. -/
def resWrite (body : Body) : M Unit := fun w =>
  let w1 := { w with attempts := w.attempts ++ [⟨w.statusCode, w.headers, body⟩] }
  if w.attempts.isEmpty then (.ok (), w1) else (.error headersSentMessage, w1)

/-- The call `res.send(buffer)`. -/
def resSend (bytes : Buffer) : M Unit := resWrite (.pdf bytes)

/-- The call `res.json(object)`. -/
def resJson (fields : List (String × JVal)) : M Unit := resWrite (.json fields)

/-- JavaScript `filename || generated` with the right operand evaluated only
when `filename` is `undefined` or empty. -/
def orElse (filename : Option String) (generated : M String) : M String :=
  match filename with
  | some s => if s == "" then generated else pure s
  | none => generated

/-- The template literal `documento_${Date.now()}.pdf`. -/
def generatedName (env : Env) : M String := do
  pure ("documento_" ++ toString (← dateNow env) ++ ".pdf")

/-! ## `index.js` -/

/-- The object literal `pdfOptions` of `index.js` (lines 70-80). -/
def pdfOptionsIndex (options : JVal) : Except String PdfOptions := do
  let format ← options.getProp "format"
  let marginTop ← options.getProp "marginTop"
  let marginRight ← options.getProp "marginRight"
  let marginBottom ← options.getProp "marginBottom"
  let marginLeft ← options.getProp "marginLeft"
  let printBackground ← options.getProp "printBackground"
  pure {
    format := orDefault format (.str "A4")
    margin := {
      top := orDefault marginTop (.str "20mm")
      right := orDefault marginRight (.str "20mm")
      bottom := orDefault marginBottom (.str "20mm")
      left := orDefault marginLeft (.str "20mm") }
    printBackground := notFalse printBackground
    preferCSSPageSize := true
    displayHeaderFooter := none }

/-- The handler `app.post('/convert', ...)` of `index.js` (lines 40-108). -/
def convertIndex (env : Env) (req : Request) : M Unit := do
  let startTime ← dateNow env
  tryCatch
    (do
      let html := req.html
      let filename := req.filename
      let options := req.options.getD (.obj [])
      if falsy html then
        resStatus 400
        resJson [("error", .str "HTML content is required")]
      else
        browserNewPage env
        tryFinally
          (do
            pageSetViewport env 1200 800 1
            pageSetContent env html ["load", "networkidle0"] 30000
            let pdfOptions ← liftExcept (pdfOptionsIndex options)
            let pdfBuffer ← pagePdf env pdfOptions
            let processingTime := (← dateNow env) - startTime
            let responseFilename ← orElse filename (generatedName env)
            resSetHeader "Content-Type" "application/pdf"
            resSetHeader "Content-Disposition"
              ("attachment; filename=\"" ++ responseFilename ++ "\"")
            resSetHeader "Content-Length" (toString pdfBuffer.length)
            resSetHeader "X-Processing-Time" (toString processingTime ++ "ms")
            resSend pdfBuffer)
          (pageClose env))
    (fun error => do
      resStatus 500
      resJson [("error", .str error)])

/-- The handler `app.get('/health', ...)` of `index.js` (lines 111-119);
`uptime` is the value of `process.uptime()` and `timestamp` the value of
`new Date().toISOString()`. -/
def healthIndex (browser : BrowserVar) (uptime : JVal) (timestamp : String) : M Unit :=
  resJson [
    ("status", .str "OK"),
    ("service", .str "HTML2PDF Converter"),
    ("uptime", uptime),
    ("timestamp", .str timestamp),
    ("browser", .bool (browser != .null))]

/-! ## `server.js` -/

/-- The object literal `pdfOptions` of `server.js` (lines 59-70). -/
def pdfOptionsServer (options : JVal) : Except String PdfOptions := do
  let format ← options.getProp "format"
  let marginTop ← options.getProp "marginTop"
  let marginRight ← options.getProp "marginRight"
  let marginBottom ← options.getProp "marginBottom"
  let marginLeft ← options.getProp "marginLeft"
  let printBackground ← options.getProp "printBackground"
  pure {
    format := orDefault format (.str "A4")
    margin := {
      top := orDefault marginTop (.str "20mm")
      right := orDefault marginRight (.str "20mm")
      bottom := orDefault marginBottom (.str "20mm")
      left := orDefault marginLeft (.str "20mm") }
    printBackground := notFalse printBackground
    preferCSSPageSize := true
    displayHeaderFooter := some false }

/-- The handler `app.post('/convert', ...)` of `server.js` (lines 42-126). -/
def convertServer (env : Env) (req : Request) : M Unit := do
  let startTime ← dateNow env
  tryCatch
    (do
      let html := req.html
      let filename := req.filename
      let options := req.options.getD (.obj [])
      if falsy html then
        resStatus 400
        resJson [
          ("success", .bool false),
          ("error", .str "HTML content is required"),
          ("message", .str "Debes proporcionar el contenido HTML en el campo \"html\"")]
      else
        let pdfOptions ← liftExcept (pdfOptionsServer options)
        browserNewPage env
        tryFinally
          (do
            pageSetViewport env 1200 800 1
            pageSetContent env html ["load", "networkidle0"] 30000
            let pdfBuffer ← pagePdf env pdfOptions
            let responseFilename ← orElse filename (generatedName env)
            let processingTime := (← dateNow env) - startTime
            resSetHeader "Content-Type" "application/pdf"
            resSetHeader "Content-Disposition"
              ("attachment; filename=\"" ++ responseFilename ++ "\"")
            resSetHeader "Content-Length" (toString pdfBuffer.length)
            resSetHeader "X-Processing-Time" (toString processingTime ++ "ms")
            resSend pdfBuffer)
          (pageClose env))
    (fun error => do
      resStatus 500
      resJson [
        ("success", .bool false),
        ("error", .str error),
        ("message", .str "Error interno del servidor durante la conversión")])

/-- The handler `app.get('/health', ...)` of `server.js` (lines 129-138). -/
def healthServer (browser : BrowserVar) (uptime : JVal) (timestamp : String) : M Unit :=
  resJson [
    ("status", .str "OK"),
    ("service", .str "HTML2PDF Converter"),
    ("version", .str "1.0.0"),
    ("uptime", uptime),
    ("timestamp", .str timestamp),
    ("browser_active", .bool (browser != .null))]

/-! ## Running a handler -/

/-- What one request leaves behind: the renderer calls in order, every body
handed to the response in order (the first one is the response the client
receives), and the error that left the handler, if any. -/
structure Outcome where
  calls : List Event
  attempts : List Response
  escaped : Option String

/-- The world at the start of a request: a fresh response object, whose status
code is 200 until the handler changes it. -/
def World.initial : World :=
  { reads := 0, calls := [], statusCode := 200, headers := [], attempts := [] }

/-- Run a handler on a fresh response object. -/
def run (handler : M Unit) : Outcome :=
  match handler World.initial with
  | (.ok _, w) => { calls := w.calls, attempts := w.attempts, escaped := none }
  | (.error e, w) => { calls := w.calls, attempts := w.attempts, escaped := some e }

/-- The response the client receives. -/
def Outcome.response (o : Outcome) : Option Response := o.attempts.head?

/-- The status code of the response the client receives. -/
def Outcome.status (o : Outcome) : Option Nat := o.response.map Response.status

/-- A header of the response the client receives. -/
def Outcome.header (o : Outcome) (name : String) : Option String :=
  o.response.bind fun r => r.headers.lookup name

/-- A field of a JSON body. -/
def Body.field (b : Body) (key : String) : Option JVal :=
  match b with
  | .json fields => fields.lookup key
  | .pdf _ => none

/-- The bytes of a binary body. -/
def Body.bytes (b : Body) : Option Buffer :=
  match b with
  | .pdf bytes => some bytes
  | .json _ => none

/-- The `error` field of the JSON body the client receives. -/
def Outcome.errorField (o : Outcome) : Option JVal :=
  o.response.bind fun r => r.body.field "error"

/-- The bytes of the binary body the client receives. -/
def Outcome.pdfBytes (o : Outcome) : Option Buffer :=
  o.response.bind fun r => r.body.bytes

/-- Number of pages handed out: `newPage` calls that returned. -/
def Outcome.acquisitions (o : Outcome) : Nat :=
  (o.calls.filter fun e => e.call.step == .newPage && e.returned).length

/-- Number of `page.close()` calls. -/
def Outcome.releases (o : Outcome) : Nat :=
  (o.calls.filter fun e => e.call.step == .close).length

/-- The operations called, in order, each with whether it returned. -/
def Outcome.steps (o : Outcome) : List (StepName × Bool) :=
  o.calls.map fun e => (e.call.step, e.returned)

/-- All five renderer calls were made, in order, and each returned. -/
def Outcome.allReturned (o : Outcome) : Prop :=
  o.steps = [(.newPage, true), (.setViewport, true), (.setContent, true),
    (.pdf, true), (.close, true)]

instance (o : Outcome) : Decidable o.allReturned := by
  unfold Outcome.allReturned; infer_instance

/-! ## Closed form of a run

The outcome of each handler written out as a case distinction on the
environment; `run_convertIndex` and `run_convertServer` prove that the handlers
compute exactly this. -/

/-- The name generated from the clock reading `t`. -/
def documentoName (t : Int) : String := "documento_" ++ toString t ++ ".pdf"

/-- The value of `filename || generated name`. -/
def responseName (filename : Option String) (t : Int) : String :=
  match filename with
  | some s => if s == "" then documentoName t else s
  | none => documentoName t

/-- The four headers of a PDF response, in the order they are set. -/
def pdfHeaders (name : String) (bytes : Buffer) (elapsed : Int) : List (String × String) :=
  [("Content-Type", "application/pdf"),
   ("Content-Disposition", "attachment; filename=\"" ++ name ++ "\""),
   ("Content-Length", toString bytes.length),
   ("X-Processing-Time", toString elapsed ++ "ms")]

/-- The JSON error body of `index.js`. -/
def errorBodyIndex (message : String) : List (String × JVal) :=
  [("error", .str message)]

/-- The JSON error body of `server.js`. -/
def errorBodyServer (message : String) : List (String × JVal) :=
  [("success", .bool false), ("error", .str message),
   ("message", .str "Error interno del servidor durante la conversión")]

/-- The `catch` block ran before anything was sent: one 500 response, with
the headers set until then. -/
def failed (errorBody : String → List (String × JVal)) (headers : List (String × String))
    (calls : List Event) (message : String) : Outcome :=
  { calls := calls, attempts := [⟨500, headers, .json (errorBody message)⟩], escaped := none }

/-- The page work threw `message`; the `finally` block closes the page, and an
error of `close` replaces `message`. -/
def closeAfterError (errorBody : String → List (String × JVal))
    (headers : List (String × String)) (calls : List Event)
    (message : String) (close : Step) : Outcome :=
  match close with
  | .ok => failed errorBody headers (calls ++ [⟨.close, true⟩]) message
  | .throws m => failed errorBody headers (calls ++ [⟨.close, false⟩]) m

/-- The PDF was sent; the `finally` block closes the page.  When `close`
throws, the `catch` block hands a 500 body to the response that was already
sent, and the error of that second write leaves the handler. -/
def closeAfterSend (errorBody : String → List (String × JVal)) (calls : List Event)
    (sent : Response) (close : Step) : Outcome :=
  match close with
  | .ok => { calls := calls ++ [⟨.close, true⟩], attempts := [sent], escaped := none }
  | .throws m =>
    { calls := calls ++ [⟨.close, false⟩]
      attempts := [sent, ⟨500, sent.headers, .json (errorBody m)⟩]
      escaped := some headersSentMessage }

/-- The page work of both handlers from `setViewport` on, given the result of
resolving the options at the place where `index.js` resolves them (after
`setContent`). -/
def pageWorkIndex (env : Env) (req : Request) (resolved : Except String PdfOptions) :
    Outcome :=
  let np : Event := ⟨.newPage, true⟩
  let sv : Call := .setViewport 1200 800 1
  let sc : Call := .setContent req.html ["load", "networkidle0"] 30000
  match env.setViewport with
  | .throws m => closeAfterError errorBodyIndex [] [np, ⟨sv, false⟩] m env.close
  | .ok =>
  match env.setContent with
  | .throws m => closeAfterError errorBodyIndex [] [np, ⟨sv, true⟩, ⟨sc, false⟩] m env.close
  | .ok =>
  match resolved with
  | .error m => closeAfterError errorBodyIndex [] [np, ⟨sv, true⟩, ⟨sc, true⟩] m env.close
  | .ok o =>
  match env.pdf with
  | .throws m =>
    closeAfterError errorBodyIndex [] [np, ⟨sv, true⟩, ⟨sc, true⟩, ⟨.pdf o, false⟩] m env.close
  | .ok bytes =>
    if headerValueOk (responseName req.filename (env.now 2)) then
      closeAfterSend errorBodyIndex [np, ⟨sv, true⟩, ⟨sc, true⟩, ⟨.pdf o, true⟩]
        ⟨200, pdfHeaders (responseName req.filename (env.now 2)) bytes
          (env.now 1 - env.now 0), .pdf bytes⟩
        env.close
    else
      closeAfterError errorBodyIndex [("Content-Type", "application/pdf")]
        [np, ⟨sv, true⟩, ⟨sc, true⟩, ⟨.pdf o, true⟩]
        (invalidCharMessage "Content-Disposition") env.close

/-- Closed form of `run (convertIndex env req)`. -/
def outcomeIndex (env : Env) (req : Request) : Outcome :=
  if falsy req.html then
    { calls := [], attempts := [⟨400, [], .json [("error", .str "HTML content is required")]⟩],
      escaped := none }
  else
    match env.browser with
    | .null => failed errorBodyIndex [] [] (nullReadMessage "newPage")
    | .launched =>
    match env.newPage with
    | .throws m => failed errorBodyIndex [] [⟨.newPage, false⟩] m
    | .ok => pageWorkIndex env req (pdfOptionsIndex (req.options.getD (.obj [])))

/-- The page work of `server.js` from `setViewport` on, with the options
already resolved to `o`. -/
def pageWorkServer (env : Env) (req : Request) (o : PdfOptions) : Outcome :=
  let np : Event := ⟨.newPage, true⟩
  let sv : Call := .setViewport 1200 800 1
  let sc : Call := .setContent req.html ["load", "networkidle0"] 30000
  match env.setViewport with
  | .throws m => closeAfterError errorBodyServer [] [np, ⟨sv, false⟩] m env.close
  | .ok =>
  match env.setContent with
  | .throws m => closeAfterError errorBodyServer [] [np, ⟨sv, true⟩, ⟨sc, false⟩] m env.close
  | .ok =>
  match env.pdf with
  | .throws m =>
    closeAfterError errorBodyServer [] [np, ⟨sv, true⟩, ⟨sc, true⟩, ⟨.pdf o, false⟩] m env.close
  | .ok bytes =>
    if headerValueOk (responseName req.filename (env.now 1)) then
      closeAfterSend errorBodyServer [np, ⟨sv, true⟩, ⟨sc, true⟩, ⟨.pdf o, true⟩]
        ⟨200, pdfHeaders (responseName req.filename (env.now 1)) bytes
            ((if falsy req.filename then env.now 2 else env.now 1) - env.now 0),
          .pdf bytes⟩
        env.close
    else
      closeAfterError errorBodyServer [("Content-Type", "application/pdf")]
        [np, ⟨sv, true⟩, ⟨sc, true⟩, ⟨.pdf o, true⟩]
        (invalidCharMessage "Content-Disposition") env.close

/-- Closed form of `run (convertServer env req)`. -/
def outcomeServer (env : Env) (req : Request) : Outcome :=
  if falsy req.html then
    { calls := []
      attempts := [⟨400, [], .json [
        ("success", .bool false),
        ("error", .str "HTML content is required"),
        ("message", .str "Debes proporcionar el contenido HTML en el campo \"html\"")]⟩]
      escaped := none }
  else
    match pdfOptionsServer (req.options.getD (.obj [])) with
    | .error m => failed errorBodyServer [] [] m
    | .ok o =>
    match env.browser with
    | .null => failed errorBodyServer [] [] (nullReadMessage "newPage")
    | .launched =>
    match env.newPage with
    | .throws m => failed errorBodyServer [] [⟨.newPage, false⟩] m
    | .ok => pageWorkServer env req o

/-! ## Concrete inputs -/

/-- A launched browser whose calls all return; the clock advances 7 ms per
reading and `page.pdf` returns the four bytes `%PDF`. -/
def envOk : Env :=
  { browser := .launched, now := fun k => 1000 + 7 * k, newPage := .ok,
    setViewport := .ok, setContent := .ok, pdf := .ok [37, 80, 68, 70], close := .ok }

/-- As `envOk`, but `page.close()` throws. -/
def envCloseThrows : Env :=
  { envOk with close := .throws "Protocol error: Connection closed." }

/-- The body `{"html": "<h1>Hi</h1>"}`. -/
def reqHi : Request :=
  { html := some "<h1>Hi</h1>", filename := none, options := none }

/-- The body `{}`. -/
def reqEmpty : Request :=
  { html := none, filename := none, options := none }

/-- The `options` object that spells out every default. -/
def explicitDefaults : JVal :=
  .obj [("format", .str "A4"), ("marginTop", .str "20mm"), ("marginRight", .str "20mm"),
    ("marginBottom", .str "20mm"), ("marginLeft", .str "20mm"),
    ("printBackground", .bool true)]

/-- The default page setup: A4, 20mm margins, backgrounds printed, CSS page
size preferred. -/
def defaultPdfOptions (displayHeaderFooter : Option Bool) : PdfOptions :=
  { format := .str "A4"
    margin := { top := .str "20mm", right := .str "20mm", bottom := .str "20mm",
                left := .str "20mm" }
    printBackground := true
    preferCSSPageSize := true
    displayHeaderFooter := displayHeaderFooter }

/-- The sub-field `key` supplied in `options`, if any. -/
def subField (options : Option JVal) (key : String) : Option JVal :=
  match options with
  | some (.obj fields) => fields.lookup key
  | _ => none

/-- The browser is launched, every renderer call returns and `page.pdf`
returns `bytes`. -/
def Env.allReturn (env : Env) (bytes : Buffer) : Prop :=
  env.browser = .launched ∧ env.newPage = .ok ∧ env.setViewport = .ok ∧
    env.setContent = .ok ∧ env.pdf = .ok bytes ∧ env.close = .ok

/-- The body `{"html": "<h1>Hi</h1>", "options": null}`. -/
def reqNullOptions : Request :=
  { html := some "<h1>Hi</h1>", filename := none, options := some .null }

/-- The options `{"format": "Letter", "printBackground": false}`. -/
def letterOptions : JVal :=
  .obj [("format", .str "Letter"), ("printBackground", .bool false)]

/-- The body `{"html": "<h1>Hi</h1>", "filename": ""}`. -/
def reqEmptyName : Request :=
  { html := some "<h1>Hi</h1>", filename := some "", options := none }

/-- The body `{"html": "<h1>Hi</h1>", "filename": "informe✓.pdf"}`: the check
mark is U+2713, which Node refuses in a header value. -/
def reqBadName : Request :=
  { html := some "<h1>Hi</h1>", filename := some "informe✓.pdf", options := none }

/-- The body `{"html": "<h1>Hi</h1>", "filename": "report.pdf"}`. -/
def reqNamed : Request :=
  { html := some "<h1>Hi</h1>", filename := some "report.pdf", options := none }

/-- A non-empty string of decimal digits. -/
def isDecimal (s : String) : Bool :=
  s != "" && s.toList.all Char.isDigit

/-- A field of the JSON body the client receives. -/
def Outcome.field (o : Outcome) (key : String) : Option JVal :=
  o.response.bind fun r => r.body.field key

/-- A call without the `displayHeaderFooter` member that only `server.js`
passes to `page.pdf`. -/
def Call.core : Call → Call
  | .pdf o => .pdf { o with displayHeaderFooter := none }
  | c => c

/-- The renderer calls in order, each with its arguments (up to
`displayHeaderFooter`) and whether it returned. -/
def Outcome.coreCalls (o : Outcome) : List Event :=
  o.calls.map fun e => ⟨e.call.core, e.returned⟩

/-- As `envOk`, but `page.setContent` runs into its timeout. -/
def envLoadTimeout : Env :=
  { envOk with setContent := .throws "Navigation timeout of 30000 ms exceeded" }

/-! ## Theorems -/

/-- Appending header values keeps them acceptable exactly when both are. -/
theorem headerValueOk_append (a b : String) :
    headerValueOk (a ++ b) = (headerValueOk a && headerValueOk b) := by
  simp [headerValueOk, String.toList, List.all_append]

/-- A decimal digit is acceptable in a header value. -/
theorem headerCharOk_digitChar (n : Nat) : headerCharOk (Nat.digitChar (n % 10)) = true := by
  have h : ∀ m, m < 10 → headerCharOk (Nat.digitChar m) = true := by decide
  exact h _ (Nat.mod_lt _ (by decide))

/-- The digits of a natural number are acceptable in a header value. -/
theorem all_toDigitsCore (fuel : Nat) : ∀ (n : Nat) (ds : List Char),
    ds.all headerCharOk = true → (Nat.toDigitsCore 10 fuel n ds).all headerCharOk = true := by
  induction fuel with
  | zero => intro n ds h; simpa [Nat.toDigitsCore] using h
  | succ fuel ih =>
    intro n ds h
    simp only [Nat.toDigitsCore]
    split
    · simp [headerCharOk_digitChar, h]
    · apply ih
      simp [headerCharOk_digitChar, h]

/-- The text of a natural number is an acceptable header value. -/
theorem headerValueOk_natToString (n : Nat) : headerValueOk (toString n) = true := by
  show (Nat.toDigits 10 n).all headerCharOk = true
  exact all_toDigitsCore _ _ _ rfl

/-- The text of an integer is an acceptable header value. -/
theorem headerValueOk_intToString (i : Int) : headerValueOk (toString i) = true := by
  cases i with
  | ofNat m => exact headerValueOk_natToString m
  | negSucc m =>
    show headerValueOk ("-" ++ toString (m + 1)) = true
    rw [headerValueOk_append, headerValueOk_natToString]
    rfl

/-- The fixed pieces of the header values are acceptable. -/
theorem headerValueOk_literals :
    headerValueOk "application/pdf" = true ∧ headerValueOk "attachment; filename=\"" = true ∧
      headerValueOk "\"" = true ∧ headerValueOk "documento_" = true ∧
      headerValueOk ".pdf" = true ∧ headerValueOk "ms" = true := by
  decide

/-- A generated name is an acceptable header value. -/
theorem headerValueOk_documentoName (t : Int) : headerValueOk (documentoName t) = true := by
  simp [documentoName, headerValueOk_append, headerValueOk_intToString, headerValueOk_literals]

/-- The Content-Disposition value is acceptable exactly when the name is. -/
theorem headerValueOk_disposition (name : String) :
    headerValueOk ("attachment; filename=\"" ++ name ++ "\"") = headerValueOk name := by
  simp [headerValueOk_append, headerValueOk_literals]

/-- The X-Processing-Time value is acceptable. -/
theorem headerValueOk_elapsed (t : Int) : headerValueOk (toString t ++ "ms") = true := by
  simp [headerValueOk_append, headerValueOk_intToString, headerValueOk_literals]

/-- Whether the response name is acceptable does not depend on the clock. -/
theorem headerValueOk_responseName (filename : Option String) (t1 t2 : Int) :
    headerValueOk (responseName filename t1) = headerValueOk (responseName filename t2) := by
  rcases filename with _ | f
  · simp [responseName, headerValueOk_documentoName]
  · by_cases hf : f = ""
    · simp [responseName, hf, headerValueOk_documentoName]
    · simp [responseName, hf]

/-- The response name is acceptable when the supplied name, if any, is. -/
theorem headerValueOk_responseName_of_supplied (filename : Option String) (t : Int)
    (h : ∀ f, filename = some f → headerValueOk f = true) :
    headerValueOk (responseName filename t) = true := by
  rcases filename with _ | f
  · simp [responseName, headerValueOk_documentoName]
  · by_cases hf : f = ""
    · simp [responseName, hf, headerValueOk_documentoName]
    · simpa [responseName, hf] using h f rfl

/-- Bind of the handler monad, applied to a world. -/
theorem bind_apply {α β : Type} (x : M α) (f : α → M β) (w : World) :
    (x >>= f) w = match x w with
      | (.ok a, w1) => f a w1
      | (.error e, w1) => (.error e, w1) := rfl

/-- Pure of the handler monad, applied to a world. -/
theorem pure_apply {α : Type} (a : α) (w : World) : (pure a : M α) w = (.ok a, w) := rfl

/-- The expression `filename || generated name` yields `responseName` and
reads the clock only when the name is generated. -/
theorem orElse_apply (env : Env) (filename : Option String) (w : World) :
    orElse filename (generatedName env) w =
      (.ok (responseName filename (env.now w.reads)),
        { w with reads := if falsy filename then w.reads + 1 else w.reads }) := by
  rcases filename with _ | f
  · rfl
  · by_cases hf : f = ""
    · subst hf; rfl
    · have hb : (f == "") = false := by simpa using hf
      simp [orElse, responseName, falsy, hb, pure_apply]

/-- The handler of `index.js` computes its closed form. -/
theorem run_convertIndex (env : Env) (req : Request) :
    run (convertIndex env req) = outcomeIndex env req := by
  obtain ⟨browser, now, newPage, setViewport, setContent, pdf, close⟩ := env
  cases hh : falsy req.html
  · cases browser
    · simp [hh, run, convertIndex, outcomeIndex, pageWorkIndex, bind_apply, pure_apply,
    tryCatch, tryFinally, closeAfterSend, closeAfterError, failed, raise,
    dateNow, browserNewPage, rendererCall, pageSetViewport, pageSetContent, liftExcept,
    pagePdf, orElse_apply, resSetHeader, resSend, resWrite, resJson, resStatus, pageClose,
    World.initial, setHeaderIn, pdfHeaders, errorBodyIndex,
    headerValueOk_disposition, headerValueOk_natToString, headerValueOk_elapsed,
    headerValueOk_literals]
    · cases newPage
      · cases setViewport
        · cases setContent
          · cases ho : pdfOptionsIndex (req.options.getD (.obj []))
            · cases close <;> simp [hh, ho, run, convertIndex, outcomeIndex, pageWorkIndex, bind_apply, pure_apply,
    tryCatch, tryFinally, closeAfterSend, closeAfterError, failed, raise,
    dateNow, browserNewPage, rendererCall, pageSetViewport, pageSetContent, liftExcept,
    pagePdf, orElse_apply, resSetHeader, resSend, resWrite, resJson, resStatus, pageClose,
    World.initial, setHeaderIn, pdfHeaders, errorBodyIndex,
    headerValueOk_disposition, headerValueOk_natToString, headerValueOk_elapsed,
    headerValueOk_literals]
            · cases pdf
              · by_cases hv : headerValueOk (responseName req.filename (now 2)) = true <;>
                  cases close <;> simp [hh, ho, hv, run, convertIndex, outcomeIndex, pageWorkIndex, bind_apply, pure_apply,
    tryCatch, tryFinally, closeAfterSend, closeAfterError, failed, raise,
    dateNow, browserNewPage, rendererCall, pageSetViewport, pageSetContent, liftExcept,
    pagePdf, orElse_apply, resSetHeader, resSend, resWrite, resJson, resStatus, pageClose,
    World.initial, setHeaderIn, pdfHeaders, errorBodyIndex,
    headerValueOk_disposition, headerValueOk_natToString, headerValueOk_elapsed,
    headerValueOk_literals]
              · cases close <;> simp [hh, ho, run, convertIndex, outcomeIndex, pageWorkIndex, bind_apply, pure_apply,
    tryCatch, tryFinally, closeAfterSend, closeAfterError, failed, raise,
    dateNow, browserNewPage, rendererCall, pageSetViewport, pageSetContent, liftExcept,
    pagePdf, orElse_apply, resSetHeader, resSend, resWrite, resJson, resStatus, pageClose,
    World.initial, setHeaderIn, pdfHeaders, errorBodyIndex,
    headerValueOk_disposition, headerValueOk_natToString, headerValueOk_elapsed,
    headerValueOk_literals]
          · cases close <;> simp [hh, run, convertIndex, outcomeIndex, pageWorkIndex, bind_apply, pure_apply,
    tryCatch, tryFinally, closeAfterSend, closeAfterError, failed, raise,
    dateNow, browserNewPage, rendererCall, pageSetViewport, pageSetContent, liftExcept,
    pagePdf, orElse_apply, resSetHeader, resSend, resWrite, resJson, resStatus, pageClose,
    World.initial, setHeaderIn, pdfHeaders, errorBodyIndex,
    headerValueOk_disposition, headerValueOk_natToString, headerValueOk_elapsed,
    headerValueOk_literals]
        · cases close <;> simp [hh, run, convertIndex, outcomeIndex, pageWorkIndex, bind_apply, pure_apply,
    tryCatch, tryFinally, closeAfterSend, closeAfterError, failed, raise,
    dateNow, browserNewPage, rendererCall, pageSetViewport, pageSetContent, liftExcept,
    pagePdf, orElse_apply, resSetHeader, resSend, resWrite, resJson, resStatus, pageClose,
    World.initial, setHeaderIn, pdfHeaders, errorBodyIndex,
    headerValueOk_disposition, headerValueOk_natToString, headerValueOk_elapsed,
    headerValueOk_literals]
      · simp [hh, run, convertIndex, outcomeIndex, pageWorkIndex, bind_apply, pure_apply,
    tryCatch, tryFinally, closeAfterSend, closeAfterError, failed, raise,
    dateNow, browserNewPage, rendererCall, pageSetViewport, pageSetContent, liftExcept,
    pagePdf, orElse_apply, resSetHeader, resSend, resWrite, resJson, resStatus, pageClose,
    World.initial, setHeaderIn, pdfHeaders, errorBodyIndex,
    headerValueOk_disposition, headerValueOk_natToString, headerValueOk_elapsed,
    headerValueOk_literals]
  · simp [hh, run, convertIndex, outcomeIndex, pageWorkIndex, bind_apply, pure_apply,
    tryCatch, tryFinally, closeAfterSend, closeAfterError, failed, raise,
    dateNow, browserNewPage, rendererCall, pageSetViewport, pageSetContent, liftExcept,
    pagePdf, orElse_apply, resSetHeader, resSend, resWrite, resJson, resStatus, pageClose,
    World.initial, setHeaderIn, pdfHeaders, errorBodyIndex,
    headerValueOk_disposition, headerValueOk_natToString, headerValueOk_elapsed,
    headerValueOk_literals]

/-- The handler of `server.js` computes its closed form. -/
theorem run_convertServer (env : Env) (req : Request) :
    run (convertServer env req) = outcomeServer env req := by
  obtain ⟨browser, now, newPage, setViewport, setContent, pdf, close⟩ := env
  cases hh : falsy req.html
  · cases ho : pdfOptionsServer (req.options.getD (.obj []))
    · simp [hh, ho, run, convertServer, outcomeServer, pageWorkServer, bind_apply, pure_apply,
    tryCatch, tryFinally, closeAfterSend, closeAfterError, failed, raise,
    dateNow, browserNewPage, rendererCall, pageSetViewport, pageSetContent, liftExcept,
    pagePdf, orElse_apply, resSetHeader, resSend, resWrite, resJson, resStatus, pageClose,
    World.initial, setHeaderIn, pdfHeaders, errorBodyServer,
    headerValueOk_disposition, headerValueOk_natToString, headerValueOk_elapsed,
    headerValueOk_literals]
    · cases browser
      · simp [hh, ho, run, convertServer, outcomeServer, pageWorkServer, bind_apply, pure_apply,
    tryCatch, tryFinally, closeAfterSend, closeAfterError, failed, raise,
    dateNow, browserNewPage, rendererCall, pageSetViewport, pageSetContent, liftExcept,
    pagePdf, orElse_apply, resSetHeader, resSend, resWrite, resJson, resStatus, pageClose,
    World.initial, setHeaderIn, pdfHeaders, errorBodyServer,
    headerValueOk_disposition, headerValueOk_natToString, headerValueOk_elapsed,
    headerValueOk_literals]
      · cases newPage
        · cases setViewport
          · cases setContent
            · cases pdf
              · cases hf : falsy req.filename <;>
                  by_cases hv : headerValueOk (responseName req.filename (now 1)) = true <;>
                  cases close <;> simp [hh, ho, hv, hf, run, convertServer, outcomeServer, pageWorkServer, bind_apply, pure_apply,
    tryCatch, tryFinally, closeAfterSend, closeAfterError, failed, raise,
    dateNow, browserNewPage, rendererCall, pageSetViewport, pageSetContent, liftExcept,
    pagePdf, orElse_apply, resSetHeader, resSend, resWrite, resJson, resStatus, pageClose,
    World.initial, setHeaderIn, pdfHeaders, errorBodyServer,
    headerValueOk_disposition, headerValueOk_natToString, headerValueOk_elapsed,
    headerValueOk_literals]
              · cases close <;> simp [hh, ho, run, convertServer, outcomeServer, pageWorkServer, bind_apply, pure_apply,
    tryCatch, tryFinally, closeAfterSend, closeAfterError, failed, raise,
    dateNow, browserNewPage, rendererCall, pageSetViewport, pageSetContent, liftExcept,
    pagePdf, orElse_apply, resSetHeader, resSend, resWrite, resJson, resStatus, pageClose,
    World.initial, setHeaderIn, pdfHeaders, errorBodyServer,
    headerValueOk_disposition, headerValueOk_natToString, headerValueOk_elapsed,
    headerValueOk_literals]
            · cases close <;> simp [hh, ho, run, convertServer, outcomeServer, pageWorkServer, bind_apply, pure_apply,
    tryCatch, tryFinally, closeAfterSend, closeAfterError, failed, raise,
    dateNow, browserNewPage, rendererCall, pageSetViewport, pageSetContent, liftExcept,
    pagePdf, orElse_apply, resSetHeader, resSend, resWrite, resJson, resStatus, pageClose,
    World.initial, setHeaderIn, pdfHeaders, errorBodyServer,
    headerValueOk_disposition, headerValueOk_natToString, headerValueOk_elapsed,
    headerValueOk_literals]
          · cases close <;> simp [hh, ho, run, convertServer, outcomeServer, pageWorkServer, bind_apply, pure_apply,
    tryCatch, tryFinally, closeAfterSend, closeAfterError, failed, raise,
    dateNow, browserNewPage, rendererCall, pageSetViewport, pageSetContent, liftExcept,
    pagePdf, orElse_apply, resSetHeader, resSend, resWrite, resJson, resStatus, pageClose,
    World.initial, setHeaderIn, pdfHeaders, errorBodyServer,
    headerValueOk_disposition, headerValueOk_natToString, headerValueOk_elapsed,
    headerValueOk_literals]
        · simp [hh, ho, run, convertServer, outcomeServer, pageWorkServer, bind_apply, pure_apply,
    tryCatch, tryFinally, closeAfterSend, closeAfterError, failed, raise,
    dateNow, browserNewPage, rendererCall, pageSetViewport, pageSetContent, liftExcept,
    pagePdf, orElse_apply, resSetHeader, resSend, resWrite, resJson, resStatus, pageClose,
    World.initial, setHeaderIn, pdfHeaders, errorBodyServer,
    headerValueOk_disposition, headerValueOk_natToString, headerValueOk_elapsed,
    headerValueOk_literals]
  · simp [hh, run, convertServer, outcomeServer, pageWorkServer, bind_apply, pure_apply,
    tryCatch, tryFinally, closeAfterSend, closeAfterError, failed, raise,
    dateNow, browserNewPage, rendererCall, pageSetViewport, pageSetContent, liftExcept,
    pagePdf, orElse_apply, resSetHeader, resSend, resWrite, resJson, resStatus, pageClose,
    World.initial, setHeaderIn, pdfHeaders, errorBodyServer,
    headerValueOk_disposition, headerValueOk_natToString, headerValueOk_elapsed,
    headerValueOk_literals]

/-- C1: when `html` is absent or the empty string, both handlers answer 400
with `error` equal to "HTML content is required", hand exactly that one body
to the response, let no error escape and make no renderer call, whatever the
state of the browser. -/
theorem convert_rejects_missing_html (env : Env) (req : Request)
    (h : req.html = none ∨ req.html = some "") :
    ((run (convertIndex env req)).status = some 400 ∧
      (run (convertIndex env req)).errorField = some (.str "HTML content is required") ∧
      (run (convertIndex env req)).attempts.length = 1 ∧
      (run (convertIndex env req)).escaped = none ∧
      (run (convertIndex env req)).calls = []) ∧
    ((run (convertServer env req)).status = some 400 ∧
      (run (convertServer env req)).errorField = some (.str "HTML content is required") ∧
      (run (convertServer env req)).attempts.length = 1 ∧
      (run (convertServer env req)).escaped = none ∧
      (run (convertServer env req)).calls = []) := by
  obtain ⟨html, filename, options⟩ := req
  rcases h with h | h <;> simp only at h <;> subst h <;>
    exact ⟨⟨rfl, rfl, rfl, rfl, rfl⟩, ⟨rfl, rfl, rfl, rfl, rfl⟩⟩

/-- Witness of C1 on the body `{}` with the browser not yet launched. -/
theorem convert_rejects_missing_html_witness :
    (reqEmpty.html = none ∨ reqEmpty.html = some "") ∧
    (run (convertIndex { envOk with browser := .null } reqEmpty)).status = some 400 ∧
    (run (convertServer { envOk with browser := .null } reqEmpty)).calls = [] :=
  have h := convert_rejects_missing_html { envOk with browser := .null } reqEmpty (Or.inl rfl)
  ⟨Or.inl rfl, h.1.1, h.2.2.2.2.2⟩

/-- In the closed form of `index.js`, closes equal pages handed out. -/
theorem outcomeIndex_balanced (env : Env) (req : Request) :
    (outcomeIndex env req).releases = (outcomeIndex env req).acquisitions ∧
      (outcomeIndex env req).acquisitions ≤ 1 := by
  unfold outcomeIndex pageWorkIndex closeAfterError closeAfterSend failed
  repeat' split
  all_goals exact ⟨rfl, Nat.le_of_ble_eq_true rfl⟩

/-- In the closed form of `server.js`, closes equal pages handed out. -/
theorem outcomeServer_balanced (env : Env) (req : Request) :
    (outcomeServer env req).releases = (outcomeServer env req).acquisitions ∧
      (outcomeServer env req).acquisitions ≤ 1 := by
  unfold outcomeServer pageWorkServer closeAfterError closeAfterSend failed
  repeat' split
  all_goals exact ⟨rfl, Nat.le_of_ble_eq_true rfl⟩

/-- C2: for every request and every outcome of the renderer calls, both
handlers call `page.close()` as many times as `browser.newPage()` returned a
page, and that is at most once: one close when a page was handed out, none
otherwise. -/
theorem convert_releases_every_page (env : Env) (req : Request) :
    ((run (convertIndex env req)).releases = (run (convertIndex env req)).acquisitions ∧
      (run (convertIndex env req)).acquisitions ≤ 1) ∧
    ((run (convertServer env req)).releases = (run (convertServer env req)).acquisitions ∧
      (run (convertServer env req)).acquisitions ≤ 1) := by
  rw [run_convertIndex, run_convertServer]
  exact ⟨outcomeIndex_balanced env req, outcomeServer_balanced env req⟩

/-- Instance of C2: a page is handed out and closed once, both when every call
returns and when `page.pdf` throws. -/
theorem convert_releases_every_page_witness :
    (run (convertIndex envOk reqHi)).acquisitions = 1 ∧
    (run (convertIndex envOk reqHi)).releases = 1 ∧
    (run (convertServer { envOk with pdf := .throws "Printing failed" } reqHi)).acquisitions = 1 ∧
    (run (convertServer { envOk with pdf := .throws "Printing failed" } reqHi)).releases = 1 :=
  have h1 := convert_releases_every_page envOk reqHi
  have h2 := convert_releases_every_page { envOk with pdf := .throws "Printing failed" } reqHi
  ⟨by decide, h1.1.1.trans (by decide), by decide, h2.2.1.trans (by decide)⟩

/-- Every `page.pdf` call of the closed form of `index.js` carries the
resolved options. -/
theorem outcomeIndex_pdf_call (env : Env) (req : Request) (o : PdfOptions)
    (h : pdfOptionsIndex (req.options.getD (.obj [])) = .ok o) :
    ∀ e ∈ (outcomeIndex env req).calls, ∀ p, e.call = .pdf p → p = o := by
  unfold outcomeIndex pageWorkIndex closeAfterError closeAfterSend failed
  rw [h]
  repeat' split
  all_goals simp_all

/-- Every `page.pdf` call of the closed form of `server.js` carries the
resolved options. -/
theorem outcomeServer_pdf_call (env : Env) (req : Request) (o : PdfOptions)
    (h : pdfOptionsServer (req.options.getD (.obj [])) = .ok o) :
    ∀ e ∈ (outcomeServer env req).calls, ∀ p, e.call = .pdf p → p = o := by
  unfold outcomeServer pageWorkServer closeAfterError closeAfterSend failed
  rw [h]
  repeat' split
  all_goals simp_all

/-- C3: in both files, a request without `options` and the same request with
the defaults spelled out resolve to the same `page.pdf` argument (format "A4",
the four margins "20mm", printBackground true, preferCSSPageSize true), every
`page.pdf` call of either request carries it, and the two requests behave
identically under every environment. -/
theorem default_options_same_pdf (env : Env) (html filename : Option String) :
    (pdfOptionsIndex ((none : Option JVal).getD (.obj [])) = .ok (defaultPdfOptions none) ∧
      pdfOptionsIndex ((some explicitDefaults).getD (.obj [])) = .ok (defaultPdfOptions none) ∧
      (∀ e ∈ (run (convertIndex env ⟨html, filename, none⟩)).calls,
        ∀ p, e.call = .pdf p → p = defaultPdfOptions none) ∧
      (∀ e ∈ (run (convertIndex env ⟨html, filename, some explicitDefaults⟩)).calls,
        ∀ p, e.call = .pdf p → p = defaultPdfOptions none) ∧
      run (convertIndex env ⟨html, filename, none⟩) =
        run (convertIndex env ⟨html, filename, some explicitDefaults⟩)) ∧
    (pdfOptionsServer ((none : Option JVal).getD (.obj [])) =
        .ok (defaultPdfOptions (some false)) ∧
      pdfOptionsServer ((some explicitDefaults).getD (.obj [])) =
        .ok (defaultPdfOptions (some false)) ∧
      (∀ e ∈ (run (convertServer env ⟨html, filename, none⟩)).calls,
        ∀ p, e.call = .pdf p → p = defaultPdfOptions (some false)) ∧
      (∀ e ∈ (run (convertServer env ⟨html, filename, some explicitDefaults⟩)).calls,
        ∀ p, e.call = .pdf p → p = defaultPdfOptions (some false)) ∧
      run (convertServer env ⟨html, filename, none⟩) =
        run (convertServer env ⟨html, filename, some explicitDefaults⟩)) := by
  simp only [run_convertIndex, run_convertServer]
  refine ⟨⟨rfl, rfl, ?_, ?_, ?_⟩, ⟨rfl, rfl, ?_, ?_, ?_⟩⟩
  · exact outcomeIndex_pdf_call env _ _ rfl
  · exact outcomeIndex_pdf_call env _ _ rfl
  · rfl
  · exact outcomeServer_pdf_call env _ _ rfl
  · exact outcomeServer_pdf_call env _ _ rfl
  · rfl

/-- `envOk` is an environment in which every call returns. -/
theorem envOk_allReturn : envOk.allReturn [37, 80, 68, 70] :=
  ⟨rfl, rfl, rfl, rfl, rfl, rfl⟩

/-- When every call returns, the options resolve and the supplied name, if
any, is an acceptable header value, `index.js` answers 200. -/
theorem outcomeIndex_status_ok (env : Env) (req : Request) (bytes : Buffer) (o : PdfOptions)
    (hhtml : falsy req.html = false) (henv : env.allReturn bytes)
    (ho : pdfOptionsIndex (req.options.getD (.obj [])) = .ok o)
    (hname : ∀ f, req.filename = some f → headerValueOk f = true) :
    (outcomeIndex env req).status = some 200 := by
  obtain ⟨h1, h2, h3, h4, h5, h6⟩ := henv
  have hv := headerValueOk_responseName_of_supplied req.filename (env.now 2) hname
  simp [outcomeIndex, pageWorkIndex, closeAfterSend, hhtml, h1, h2, h3, h4, h5, h6, ho, hv,
    Outcome.status, Outcome.response]

/-- When every call returns, the options resolve and the supplied name, if
any, is an acceptable header value, `server.js` answers 200. -/
theorem outcomeServer_status_ok (env : Env) (req : Request) (bytes : Buffer) (o : PdfOptions)
    (hhtml : falsy req.html = false) (henv : env.allReturn bytes)
    (ho : pdfOptionsServer (req.options.getD (.obj [])) = .ok o)
    (hname : ∀ f, req.filename = some f → headerValueOk f = true) :
    (outcomeServer env req).status = some 200 := by
  obtain ⟨h1, h2, h3, h4, h5, h6⟩ := henv
  have hv := headerValueOk_responseName_of_supplied req.filename (env.now 1) hname
  simp [outcomeServer, pageWorkServer, closeAfterSend, hhtml, h1, h2, h3, h4, h5, h6, ho, hv,
    Outcome.status, Outcome.response]

/-- C4, as claimed, fails for `options: null`: the default `options = {}` of the
destructuring only replaces `undefined`, so reading `options.format` throws a
`TypeError` in both files, and a request whose renderer calls would all return
is answered 500 with that message. -/
theorem null_options_do_not_resolve :
    pdfOptionsIndex (reqNullOptions.options.getD (.obj [])) =
        .error "Cannot read properties of null (reading \x27format\x27)" ∧
      pdfOptionsServer (reqNullOptions.options.getD (.obj [])) =
        .error "Cannot read properties of null (reading \x27format\x27)" ∧
      (run (convertIndex envOk reqNullOptions)).status = some 500 ∧
      (run (convertIndex envOk reqNullOptions)).errorField =
        some (.str "Cannot read properties of null (reading \x27format\x27)") ∧
      (run (convertServer envOk reqNullOptions)).status = some 500 ∧
      (run (convertServer envOk reqNullOptions)).errorField =
        some (.str "Cannot read properties of null (reading \x27format\x27)") :=
  ⟨rfl, rfl, rfl, rfl, rfl, rfl⟩

/-- C4, amended: for `options` omitted or any JSON value other than `null`,
both files resolve the options without an error, to the same object up to
`displayHeaderFooter`; every sub-field that is absent takes its default
(format "A4", each margin "20mm", printBackground true), preferCSSPageSize is
true, and option resolution never turns the request into a 500: a request
with non-empty `html` whose renderer calls all return, and whose `filename`
(if supplied) is a value Node accepts in a header, is answered 200. -/
theorem options_resolve_unless_null (options : Option JVal) (h : options ≠ some .null) :
    ∃ o : PdfOptions,
      pdfOptionsIndex (options.getD (.obj [])) = .ok o ∧
      pdfOptionsServer (options.getD (.obj [])) =
        .ok { o with displayHeaderFooter := some false } ∧
      (subField options "format" = none → o.format = .str "A4") ∧
      (subField options "marginTop" = none → o.margin.top = .str "20mm") ∧
      (subField options "marginRight" = none → o.margin.right = .str "20mm") ∧
      (subField options "marginBottom" = none → o.margin.bottom = .str "20mm") ∧
      (subField options "marginLeft" = none → o.margin.left = .str "20mm") ∧
      (subField options "printBackground" = none → o.printBackground = true) ∧
      o.preferCSSPageSize = true ∧
      (∀ (env : Env) (html filename : Option String) (bytes : Buffer),
        falsy html = false → env.allReturn bytes →
        (∀ f, filename = some f → headerValueOk f = true) →
          (run (convertIndex env ⟨html, filename, options⟩)).status = some 200 ∧
          (run (convertServer env ⟨html, filename, options⟩)).status = some 200) := by
  have key : ∃ o : PdfOptions,
      pdfOptionsIndex (options.getD (.obj [])) = .ok o ∧
      pdfOptionsServer (options.getD (.obj [])) =
        .ok { o with displayHeaderFooter := some false } ∧
      (subField options "format" = none → o.format = .str "A4") ∧
      (subField options "marginTop" = none → o.margin.top = .str "20mm") ∧
      (subField options "marginRight" = none → o.margin.right = .str "20mm") ∧
      (subField options "marginBottom" = none → o.margin.bottom = .str "20mm") ∧
      (subField options "marginLeft" = none → o.margin.left = .str "20mm") ∧
      (subField options "printBackground" = none → o.printBackground = true) ∧
      o.preferCSSPageSize = true := by
    rcases options with _ | _ | b | n | s | items | fields
    · exact ⟨_, rfl, rfl, fun _ => rfl, fun _ => rfl, fun _ => rfl, fun _ => rfl,
        fun _ => rfl, fun _ => rfl, rfl⟩
    · exact absurd rfl h
    · exact ⟨_, rfl, rfl, fun _ => rfl, fun _ => rfl, fun _ => rfl, fun _ => rfl,
        fun _ => rfl, fun _ => rfl, rfl⟩
    · exact ⟨_, rfl, rfl, fun _ => rfl, fun _ => rfl, fun _ => rfl, fun _ => rfl,
        fun _ => rfl, fun _ => rfl, rfl⟩
    · exact ⟨_, rfl, rfl, fun _ => rfl, fun _ => rfl, fun _ => rfl, fun _ => rfl,
        fun _ => rfl, fun _ => rfl, rfl⟩
    · exact ⟨_, rfl, rfl, fun _ => rfl, fun _ => rfl, fun _ => rfl, fun _ => rfl,
        fun _ => rfl, fun _ => rfl, rfl⟩
    · refine ⟨_, rfl, rfl, ?_, ?_, ?_, ?_, ?_, ?_, rfl⟩ <;>
      · intro hk
        simp only [subField] at hk
        simp [hk, orDefault, notFalse]
  obtain ⟨o, hi, hs, rest⟩ := key
  refine ⟨o, hi, hs, ?_⟩
  obtain ⟨r1, r2, r3, r4, r5, r6, r7⟩ := rest
  refine ⟨r1, r2, r3, r4, r5, r6, r7, ?_⟩
  intro env html filename bytes hhtml henv hname
  rw [run_convertIndex, run_convertServer]
  exact ⟨outcomeIndex_status_ok env _ bytes o hhtml henv hi hname,
    outcomeServer_status_ok env _ bytes _ hhtml henv hs hname⟩

/-- Witness of C4 amended, on `{"format": "Letter", "printBackground": false}`:
the options resolve, the absent margins take "20mm", and the request is
answered 200. -/
theorem options_resolve_unless_null_witness :
    some letterOptions ≠ some JVal.null ∧
    (∃ o : PdfOptions,
      pdfOptionsIndex ((some letterOptions).getD (.obj [])) = .ok o ∧
      o.margin.top = .str "20mm" ∧
      (run (convertIndex envOk ⟨some "<h1>Hi</h1>", none, some letterOptions⟩)).status =
        some 200) :=
  have hne : some letterOptions ≠ some JVal.null := fun h => by cases h
  have ⟨o, hi, _, _, htop, _, _, _, _, _, hrun⟩ :=
    options_resolve_unless_null (some letterOptions) hne
  ⟨hne, o, hi, htop rfl,
    (hrun envOk (some "<h1>Hi</h1>") none _ rfl envOk_allReturn (fun _ h => by cases h)).1⟩

/-- When all five calls were made and returned and the response name is an
acceptable header value, `index.js` handed exactly one body to the response:
the PDF with status 200 and the four headers. -/
theorem outcomeIndex_of_allReturned (env : Env) (req : Request) (bytes : Buffer)
    (hpdf : env.pdf = .ok bytes)
    (hv : headerValueOk (responseName req.filename (env.now 2)) = true)
    (h : (outcomeIndex env req).allReturned) :
    (outcomeIndex env req).attempts =
        [⟨200, pdfHeaders (responseName req.filename (env.now 2)) bytes
          (env.now 1 - env.now 0), .pdf bytes⟩] ∧
      (outcomeIndex env req).escaped = none := by
  revert h
  unfold outcomeIndex pageWorkIndex closeAfterError closeAfterSend failed
  repeat' split
  all_goals simp_all [Outcome.allReturned, Outcome.steps, Call.step]

/-- When all five calls were made and returned and the response name is an
acceptable header value, `server.js` handed exactly one body to the response:
the PDF with status 200 and the four headers. -/
theorem outcomeServer_of_allReturned (env : Env) (req : Request) (bytes : Buffer)
    (hpdf : env.pdf = .ok bytes)
    (hv : headerValueOk (responseName req.filename (env.now 1)) = true)
    (h : (outcomeServer env req).allReturned) :
    (outcomeServer env req).attempts =
        [⟨200, pdfHeaders (responseName req.filename (env.now 1)) bytes
          ((if falsy req.filename then env.now 2 else env.now 1) - env.now 0), .pdf bytes⟩] ∧
      (outcomeServer env req).escaped = none := by
  revert h
  unfold outcomeServer pageWorkServer closeAfterError closeAfterSend failed
  repeat' split
  all_goals simp_all [Outcome.allReturned, Outcome.steps, Call.step]

/-- What the client reads off a PDF response. -/
theorem pdfResponse_fields (o : Outcome) (name : String) (bytes : Buffer) (elapsed : Int)
    (h : o.response = some ⟨200, pdfHeaders name bytes elapsed, .pdf bytes⟩) :
    o.status = some 200 ∧ o.pdfBytes = some bytes ∧
      o.header "Content-Type" = some "application/pdf" ∧
      o.header "Content-Disposition" = some ("attachment; filename=\"" ++ name ++ "\"") ∧
      o.header "Content-Length" = some (toString bytes.length) ∧
      o.header "X-Processing-Time" = some (toString elapsed ++ "ms") := by
  simp only [Outcome.status, Outcome.pdfBytes, Outcome.header, h]
  exact ⟨rfl, rfl, rfl, rfl, rfl, rfl⟩

/-- A supplied non-empty name is the response name. -/
theorem responseName_supplied (f : String) (t : Int) (hf : f ≠ "") :
    responseName (some f) t = f := by
  simp [responseName, hf]

/-- Without a non-empty name the response name is generated from the clock. -/
theorem responseName_generated (filename : Option String) (t : Int)
    (hf : falsy filename = true) :
    responseName filename t = "documento_" ++ toString t ++ ".pdf" := by
  rcases filename with _ | f
  · rfl
  · simp only [falsy] at hf
    simp [responseName, hf, documentoName]

/-- C5, as claimed, fails in two ways although all five renderer calls return.
A supplied `filename` that is the empty string is replaced by a generated
name.  And a supplied `filename` with a character Node refuses in a header
value (here U+2713) makes `res.setHeader` throw: the answer is 500 with the
message of that error, and no Content-Disposition is sent. -/
theorem empty_or_illegal_filename :
    (reqEmptyName.filename = some "" ∧
      (run (convertIndex envOk reqEmptyName)).allReturned ∧
      (run (convertIndex envOk reqEmptyName)).status = some 200 ∧
      (run (convertIndex envOk reqEmptyName)).header "Content-Disposition" =
        some "attachment; filename=\"documento_1014.pdf\"" ∧
      (run (convertIndex envOk reqEmptyName)).header "Content-Disposition" ≠
        some ("attachment; filename=\"" ++ "" ++ "\"") ∧
      (run (convertServer envOk reqEmptyName)).allReturned ∧
      (run (convertServer envOk reqEmptyName)).status = some 200 ∧
      (run (convertServer envOk reqEmptyName)).header "Content-Disposition" =
        some "attachment; filename=\"documento_1007.pdf\"" ∧
      (run (convertServer envOk reqEmptyName)).header "Content-Disposition" ≠
        some ("attachment; filename=\"" ++ "" ++ "\"")) ∧
    (reqBadName.filename = some "informe✓.pdf" ∧
      (run (convertIndex envOk reqBadName)).allReturned ∧
      (run (convertIndex envOk reqBadName)).status = some 500 ∧
      (run (convertIndex envOk reqBadName)).errorField =
        some (.str "Invalid character in header content [\"Content-Disposition\"]") ∧
      (run (convertIndex envOk reqBadName)).header "Content-Disposition" = none ∧
      (run (convertServer envOk reqBadName)).allReturned ∧
      (run (convertServer envOk reqBadName)).status = some 500 ∧
      (run (convertServer envOk reqBadName)).errorField =
        some (.str "Invalid character in header content [\"Content-Disposition\"]") ∧
      (run (convertServer envOk reqBadName)).header "Content-Disposition" = none) :=
  ⟨by decide, rfl, by decide, rfl, rfl, rfl, by decide, rfl, rfl, rfl⟩

/-- C5, amended: when `page.pdf` returns `bytes`, all five renderer calls
were made and returned, and the `filename`, if one was supplied, is a value
Node accepts in a header (only tabs and characters from U+0020 to U+007E or
from U+0080 to U+00FF), both handlers hand exactly one body to the response
and let no error escape; the response has status 200, body `bytes`,
Content-Type "application/pdf", Content-Length the length of `bytes`, and
Content-Disposition `attachment; filename="<name>"`, where <name> is the
request's `filename` when a non-empty one was supplied, and otherwise (absent
or empty) `documento_<t>.pdf` with `t` the clock reading taken for the name:
the third reading of the request in `index.js`, the second in `server.js`. -/
theorem convert_success_response (env : Env) (req : Request) (bytes : Buffer)
    (hpdf : env.pdf = .ok bytes)
    (hname : ∀ f, req.filename = some f → headerValueOk f = true) :
    ((run (convertIndex env req)).allReturned →
      (run (convertIndex env req)).attempts.length = 1 ∧
      (run (convertIndex env req)).escaped = none ∧
      (run (convertIndex env req)).status = some 200 ∧
      (run (convertIndex env req)).pdfBytes = some bytes ∧
      (run (convertIndex env req)).header "Content-Type" = some "application/pdf" ∧
      (run (convertIndex env req)).header "Content-Length" = some (toString bytes.length) ∧
      (∀ f, req.filename = some f → f ≠ "" →
        (run (convertIndex env req)).header "Content-Disposition" =
          some ("attachment; filename=\"" ++ f ++ "\"")) ∧
      (falsy req.filename = true →
        (run (convertIndex env req)).header "Content-Disposition" =
          some ("attachment; filename=\"" ++
            ("documento_" ++ toString (env.now 2) ++ ".pdf") ++ "\""))) ∧
    ((run (convertServer env req)).allReturned →
      (run (convertServer env req)).attempts.length = 1 ∧
      (run (convertServer env req)).escaped = none ∧
      (run (convertServer env req)).status = some 200 ∧
      (run (convertServer env req)).pdfBytes = some bytes ∧
      (run (convertServer env req)).header "Content-Type" = some "application/pdf" ∧
      (run (convertServer env req)).header "Content-Length" = some (toString bytes.length) ∧
      (∀ f, req.filename = some f → f ≠ "" →
        (run (convertServer env req)).header "Content-Disposition" =
          some ("attachment; filename=\"" ++ f ++ "\"")) ∧
      (falsy req.filename = true →
        (run (convertServer env req)).header "Content-Disposition" =
          some ("attachment; filename=\"" ++
            ("documento_" ++ toString (env.now 1) ++ ".pdf") ++ "\""))) := by
  rw [run_convertIndex, run_convertServer]
  constructor
  · intro h
    obtain ⟨hatt, hesc⟩ := outcomeIndex_of_allReturned env req bytes hpdf
      (headerValueOk_responseName_of_supplied _ _ hname) h
    obtain ⟨h1, h2, h3, h4, h5, _⟩ :=
      pdfResponse_fields _ _ _ _ (by rw [Outcome.response, hatt]; rfl)
    refine ⟨by rw [hatt]; rfl, hesc, h1, h2, h3, h5, ?_, ?_⟩
    · intro f hf hne
      rw [h4, hf, responseName_supplied f _ hne]
    · intro hf
      rw [h4, responseName_generated _ _ hf]
  · intro h
    obtain ⟨hatt, hesc⟩ := outcomeServer_of_allReturned env req bytes hpdf
      (headerValueOk_responseName_of_supplied _ _ hname) h
    obtain ⟨h1, h2, h3, h4, h5, _⟩ :=
      pdfResponse_fields _ _ _ _ (by rw [Outcome.response, hatt]; rfl)
    refine ⟨by rw [hatt]; rfl, hesc, h1, h2, h3, h5, ?_, ?_⟩
    · intro f hf hne
      rw [h4, hf, responseName_supplied f _ hne]
    · intro hf
      rw [h4, responseName_generated _ _ hf]

/-- Witness of C5 amended, on a request that names its file `report.pdf`. -/
theorem convert_success_response_witness :
    envOk.pdf = .ok [37, 80, 68, 70] ∧
    headerValueOk "report.pdf" = true ∧
    (run (convertIndex envOk reqNamed)).allReturned ∧
    (run (convertIndex envOk reqNamed)).status = some 200 ∧
    (run (convertIndex envOk reqNamed)).pdfBytes = some [37, 80, 68, 70] ∧
    (run (convertIndex envOk reqNamed)).header "Content-Disposition" =
      some ("attachment; filename=\"" ++ "report.pdf" ++ "\"") :=
  have hname : ∀ f, reqNamed.filename = some f → headerValueOk f = true :=
    fun f hf => by
      obtain rfl : "report.pdf" = f := Option.some.inj hf
      decide
  have h := (convert_success_response envOk reqNamed [37, 80, 68, 70] rfl hname).1 (by decide)
  ⟨rfl, by decide, by decide, h.2.2.1, h.2.2.2.1, h.2.2.2.2.2.2.1 "report.pdf" rfl (by decide)⟩

/-- When `index.js` answers 200, the response is the PDF with the four
headers. -/
theorem outcomeIndex_of_status_ok (env : Env) (req : Request)
    (h : (outcomeIndex env req).status = some 200) :
    ∃ bytes, (outcomeIndex env req).response =
      some ⟨200, pdfHeaders (responseName req.filename (env.now 2)) bytes
        (env.now 1 - env.now 0), .pdf bytes⟩ := by
  revert h
  unfold outcomeIndex pageWorkIndex closeAfterError closeAfterSend failed
  repeat' split
  all_goals simp [Outcome.status, Outcome.response]

/-- When `server.js` answers 200, the response is the PDF with the four
headers. -/
theorem outcomeServer_of_status_ok (env : Env) (req : Request)
    (h : (outcomeServer env req).status = some 200) :
    ∃ bytes, (outcomeServer env req).response =
      some ⟨200, pdfHeaders (responseName req.filename (env.now 1)) bytes
        ((if falsy req.filename then env.now 2 else env.now 1) - env.now 0), .pdf bytes⟩ := by
  revert h
  unfold outcomeServer pageWorkServer closeAfterError closeAfterSend failed
  repeat' split
  all_goals simp [Outcome.status, Outcome.response]

/-- The text of a non-negative integer is the text of its natural number. -/
theorem toString_of_nonneg (i : Int) (h : 0 ≤ i) : toString i = toString i.toNat := by
  obtain ⟨n, rfl⟩ := Int.eq_ofNat_of_zero_le h
  rfl

/-- C6, as claimed, fails on every successful conversion: the header value is
the elapsed milliseconds followed by the unit `ms`, so it is not a string of
digits and not the decimal representation of the elapsed time. -/
theorem processing_time_is_not_numeric :
    (run (convertIndex envOk reqHi)).status = some 200 ∧
    envOk.now 1 - envOk.now 0 = 7 ∧
    (run (convertIndex envOk reqHi)).header "X-Processing-Time" = some "7ms" ∧
    (run (convertIndex envOk reqHi)).header "X-Processing-Time" ≠ some (toString (7 : Int)) ∧
    isDecimal "7ms" = false ∧
    (run (convertServer envOk reqHi)).status = some 200 ∧
    envOk.now 2 - envOk.now 0 = 14 ∧
    (run (convertServer envOk reqHi)).header "X-Processing-Time" = some "14ms" ∧
    (run (convertServer envOk reqHi)).header "X-Processing-Time" ≠ some (toString (14 : Int)) ∧
    isDecimal "14ms" = false := by
  decide

/-- C6, amended: whenever the client receives status 200 (also when
`page.close()` throws afterwards), the response carries an X-Processing-Time
header whose value is the decimal representation of the elapsed milliseconds
followed by `ms`; the elapsed time is the clock reading taken after the PDF
export (in `server.js` after the file name was built) minus the reading taken
at the start of the handler, and when the later reading is not smaller it is
a natural number. -/
theorem processing_time_header (env : Env) (req : Request) :
    ((run (convertIndex env req)).status = some 200 →
      (run (convertIndex env req)).header "X-Processing-Time" =
        some (toString (env.now 1 - env.now 0) ++ "ms") ∧
      (env.now 0 ≤ env.now 1 →
        (run (convertIndex env req)).header "X-Processing-Time" =
          some (toString (env.now 1 - env.now 0).toNat ++ "ms"))) ∧
    ((run (convertServer env req)).status = some 200 →
      (run (convertServer env req)).header "X-Processing-Time" =
        some (toString ((if falsy req.filename then env.now 2 else env.now 1) - env.now 0)
          ++ "ms") ∧
      (env.now 0 ≤ (if falsy req.filename then env.now 2 else env.now 1) →
        (run (convertServer env req)).header "X-Processing-Time" =
          some (toString ((if falsy req.filename then env.now 2 else env.now 1)
            - env.now 0).toNat ++ "ms"))) := by
  rw [run_convertIndex, run_convertServer]
  constructor
  · intro h
    obtain ⟨bytes, hr⟩ := outcomeIndex_of_status_ok env req h
    obtain ⟨_, _, _, _, _, h6⟩ := pdfResponse_fields _ _ _ _ hr
    refine ⟨h6, fun hle => ?_⟩
    rw [h6, toString_of_nonneg _ (Int.sub_nonneg_of_le hle)]
  · intro h
    obtain ⟨bytes, hr⟩ := outcomeServer_of_status_ok env req h
    obtain ⟨_, _, _, _, _, h6⟩ := pdfResponse_fields _ _ _ _ hr
    refine ⟨h6, fun hle => ?_⟩
    rw [h6, toString_of_nonneg _ (Int.sub_nonneg_of_le hle)]

/-- Witness of C6 amended: 7 ms in `index.js`; 14 ms in `server.js`, also when
`page.close()` throws after the PDF was sent. -/
theorem processing_time_header_witness :
    (run (convertIndex envOk reqHi)).status = some 200 ∧
    (run (convertIndex envOk reqHi)).header "X-Processing-Time" =
      some (toString (envOk.now 1 - envOk.now 0).toNat ++ "ms") ∧
    (run (convertServer envCloseThrows reqHi)).status = some 200 ∧
    (run (convertServer envCloseThrows reqHi)).header "X-Processing-Time" =
      some (toString ((if falsy reqHi.filename then envCloseThrows.now 2
        else envCloseThrows.now 1) - envCloseThrows.now 0) ++ "ms") :=
  have h1 := (processing_time_header envOk reqHi).1 rfl
  have h2 := (processing_time_header envCloseThrows reqHi).2 rfl
  ⟨rfl, h1.2 (by decide), rfl, h2.1⟩

/-- Whenever `page.close()` is set to return, a request with non-empty `html`
is answered either 200 or 500 with a JSON body carrying an `error` message,
and no error leaves the handler. -/
theorem failure_reported_when_close_returns (env : Env) (req : Request)
    (hhtml : falsy req.html = false) (h : env.close = .ok) :
    (((run (convertIndex env req)).status = some 200 ∨
        ((run (convertIndex env req)).status = some 500 ∧
          ∃ m, (run (convertIndex env req)).errorField = some (.str m))) ∧
      (run (convertIndex env req)).escaped = none) ∧
    (((run (convertServer env req)).status = some 200 ∨
        ((run (convertServer env req)).status = some 500 ∧
          ∃ m, (run (convertServer env req)).errorField = some (.str m))) ∧
      (run (convertServer env req)).escaped = none) := by
  rw [run_convertIndex, run_convertServer]
  constructor
  · unfold outcomeIndex pageWorkIndex closeAfterError closeAfterSend failed
    rw [h]
    repeat' split
    all_goals simp_all [Outcome.status, Outcome.errorField, Outcome.response, Body.field,
      errorBodyIndex, List.lookup]
  · unfold outcomeServer pageWorkServer closeAfterError closeAfterSend failed
    rw [h]
    repeat' split
    all_goals simp_all [Outcome.status, Outcome.errorField, Outcome.response, Body.field,
      errorBodyServer, List.lookup]

/-- C7 at its failing input (every call returns except `page.close()`, which
throws after the PDF was sent): the client receives status 200 and no `error`
field, the `catch` block hands a 500 body with the message of `close` to the
response already sent, and the error of that write leaves the handler. -/
theorem close_error_is_not_reported :
    (run (convertIndex envCloseThrows reqHi)).status = some 200 ∧
    (run (convertIndex envCloseThrows reqHi)).errorField = none ∧
    (run (convertIndex envCloseThrows reqHi)).escaped =
      some "Cannot set headers after they are sent to the client" ∧
    (run (convertServer envCloseThrows reqHi)).status = some 200 ∧
    (run (convertServer envCloseThrows reqHi)).errorField = none ∧
    (run (convertServer envCloseThrows reqHi)).escaped =
      some "Cannot set headers after they are sent to the client" :=
  ⟨rfl, rfl, rfl, rfl, rfl, rfl⟩

/-- C8, as claimed, fails for `server.js`: its health body has no field named
`browser`; the flag is called `browser_active`. -/
theorem health_server_has_no_browser_field :
    (run (healthServer .launched (.num 12) "2024-05-01T10:00:00.000Z")).field "browser" = none ∧
    (run (healthServer .launched (.num 12) "2024-05-01T10:00:00.000Z")).field "browser_active" =
      some (.bool true) :=
  ⟨rfl, rfl⟩

/-- C8, amended: for every state of the browser variable, `/health` answers
200 with `status` "OK" and a boolean that is true exactly when the browser
variable is not `null`; the boolean is the field `browser` in `index.js` and
the field `browser_active` in `server.js`, which has no field `browser`. -/
theorem health_reports_browser (browser : BrowserVar) (uptime : JVal) (timestamp : String) :
    ((run (healthIndex browser uptime timestamp)).status = some 200 ∧
      (run (healthIndex browser uptime timestamp)).attempts.length = 1 ∧
      (run (healthIndex browser uptime timestamp)).field "status" = some (.str "OK") ∧
      (run (healthIndex browser uptime timestamp)).field "browser" =
        some (.bool (decide (browser ≠ .null)))) ∧
    ((run (healthServer browser uptime timestamp)).status = some 200 ∧
      (run (healthServer browser uptime timestamp)).attempts.length = 1 ∧
      (run (healthServer browser uptime timestamp)).field "status" = some (.str "OK") ∧
      (run (healthServer browser uptime timestamp)).field "browser_active" =
        some (.bool (decide (browser ≠ .null))) ∧
      (run (healthServer browser uptime timestamp)).field "browser" = none) := by
  cases browser <;> exact ⟨⟨rfl, rfl, rfl, rfl⟩, ⟨rfl, rfl, rfl, rfl, rfl⟩⟩

/-- Whenever `page.close()` returns, or is never called because it is set to
return, both handlers hand exactly one body to the response and no error
leaves them: the second write only happens when `close` throws. -/
theorem one_response_when_close_returns (env : Env) (req : Request) (h : env.close = .ok) :
    ((run (convertIndex env req)).attempts.length = 1 ∧
      (run (convertIndex env req)).escaped = none) ∧
    ((run (convertServer env req)).attempts.length = 1 ∧
      (run (convertServer env req)).escaped = none) := by
  rw [run_convertIndex, run_convertServer]
  constructor
  · unfold outcomeIndex pageWorkIndex closeAfterError closeAfterSend failed
    rw [h]
    repeat' split
    all_goals simp_all
  · unfold outcomeServer pageWorkServer closeAfterError closeAfterSend failed
    rw [h]
    repeat' split
    all_goals simp_all

/-- C10 at its failing input (every call returns except `page.close()`): both
handlers hand two bodies to the response, the PDF with status 200 and then
the JSON error with status 500. -/
theorem second_response_after_close_error :
    (run (convertIndex envCloseThrows reqHi)).attempts.map Response.status = [200, 500] ∧
    ((run (convertIndex envCloseThrows reqHi)).attempts.map fun r => r.body.field "error") =
      [none, some (.str "Protocol error: Connection closed.")] ∧
    (run (convertServer envCloseThrows reqHi)).attempts.map Response.status = [200, 500] ∧
    ((run (convertServer envCloseThrows reqHi)).attempts.map fun r => r.body.field "error") =
      [none, some (.str "Protocol error: Connection closed.")] :=
  ⟨rfl, rfl, rfl, rfl⟩

/-- Options other than `null` resolve in both files, to the same object up to
`displayHeaderFooter`. -/
theorem pdfOptions_resolve (v : JVal) (h : v ≠ .null) :
    ∃ o : PdfOptions, pdfOptionsIndex v = .ok o ∧
      pdfOptionsServer v = .ok { o with displayHeaderFooter := some false } ∧
      o.displayHeaderFooter = none := by
  cases v
  case null => exact absurd rfl h
  all_goals exact ⟨_, rfl, rfl, rfl⟩

/-- A non-empty supplied name does not depend on the clock. -/
theorem responseName_of_supplied (filename : Option String) (t1 t2 : Int)
    (h : falsy filename = false) : responseName filename t1 = responseName filename t2 := by
  rcases filename with _ | f
  · simp [falsy] at h
  · simp only [falsy] at h
    simp [responseName, h]

/-- C9, as claimed, fails in two ways.  With `options: null`, `index.js` opens
a page, sets the viewport, loads the content and closes the page before it
answers 500, while `server.js` answers 500 without any renderer call; when the
load times out as well, the two report different errors.  And without a
`filename`, the generated names embed different clock readings. -/
theorem handlers_differ :
    ((run (convertIndex envOk reqNullOptions)).steps =
        [(.newPage, true), (.setViewport, true), (.setContent, true), (.close, true)] ∧
      (run (convertServer envOk reqNullOptions)).steps = []) ∧
    ((run (convertIndex envLoadTimeout reqNullOptions)).errorField =
        some (.str "Navigation timeout of 30000 ms exceeded") ∧
      (run (convertServer envLoadTimeout reqNullOptions)).errorField =
        some (.str "Cannot read properties of null (reading \x27format\x27)")) ∧
    ((run (convertIndex envOk reqHi)).header "Content-Disposition" =
        some "attachment; filename=\"documento_1014.pdf\"" ∧
      (run (convertServer envOk reqHi)).header "Content-Disposition" =
        some "attachment; filename=\"documento_1007.pdf\"") :=
  ⟨⟨rfl, rfl⟩, ⟨rfl, rfl⟩, ⟨rfl, rfl⟩⟩

/-- C9, amended: for every request whose `options` is not `null` and every
behaviour of the renderer, the two handlers make the same renderer calls with
the same arguments up to `displayHeaderFooter` and the same results, hand the
same number of bodies to the response, and the client receives the same
status, the same `error` field, the same PDF bytes and the same Content-Type
and Content-Length; an error leaves one handler exactly when it leaves the
other; the Content-Disposition is the same when a non-empty `filename` was
supplied or the second and third clock readings of the request are equal. -/
theorem handlers_agree_unless_null_options (env : Env) (req : Request)
    (h : req.options ≠ some .null) :
    (run (convertIndex env req)).coreCalls = (run (convertServer env req)).coreCalls ∧
    (run (convertIndex env req)).attempts.length =
      (run (convertServer env req)).attempts.length ∧
    (run (convertIndex env req)).escaped = (run (convertServer env req)).escaped ∧
    (run (convertIndex env req)).status = (run (convertServer env req)).status ∧
    (run (convertIndex env req)).errorField = (run (convertServer env req)).errorField ∧
    (run (convertIndex env req)).pdfBytes = (run (convertServer env req)).pdfBytes ∧
    (run (convertIndex env req)).header "Content-Type" =
      (run (convertServer env req)).header "Content-Type" ∧
    (run (convertIndex env req)).header "Content-Length" =
      (run (convertServer env req)).header "Content-Length" ∧
    (falsy req.filename = false ∨ env.now 1 = env.now 2 →
      (run (convertIndex env req)).header "Content-Disposition" =
        (run (convertServer env req)).header "Content-Disposition") := by
  have hv : req.options.getD (.obj []) ≠ .null := by
    rcases ho : req.options with _ | v
    · simp
    · intro hn
      simp only [Option.getD] at hn
      exact h (by rw [ho, hn])
  obtain ⟨o, hi, hs, hd⟩ := pdfOptions_resolve _ hv
  have hname : falsy req.filename = false ∨ env.now 1 = env.now 2 →
      responseName req.filename (env.now 2) = responseName req.filename (env.now 1) := by
    rintro (hf | ht)
    · exact responseName_of_supplied _ _ _ hf
    · rw [ht]
  rw [run_convertIndex, run_convertServer]
  simp only [outcomeIndex, outcomeServer, pageWorkIndex, pageWorkServer, hi, hs]
  by_cases hh : falsy req.html = true
  · rw [if_pos hh, if_pos hh]
    exact ⟨rfl, rfl, rfl, rfl, rfl, rfl, rfl, rfl, fun _ => rfl⟩
  · rw [if_neg hh, if_neg hh]
    rcases env.browser with _ | _
    · exact ⟨rfl, rfl, rfl, rfl, rfl, rfl, rfl, rfl, fun _ => rfl⟩
    · rcases env.newPage with _ | m1
      · rcases env.setViewport with _ | m2
        · rcases env.setContent with _ | m3
          · rcases env.pdf with bytes | m4
            · rw [headerValueOk_responseName req.filename (env.now 1) (env.now 2)]
              by_cases hv : headerValueOk (responseName req.filename (env.now 2)) = true
              · simp only [hv, ↓reduceIte]
                rcases env.close with _ | m5
                · refine ⟨?_, rfl, rfl, rfl, rfl, rfl, rfl, rfl, fun hc => ?_⟩
                  · simp [closeAfterSend, Outcome.coreCalls, Call.core, hd]
                  · rw [hname hc]
                    rfl
                · refine ⟨?_, rfl, rfl, rfl, rfl, rfl, rfl, rfl, fun hc => ?_⟩
                  · simp [closeAfterSend, Outcome.coreCalls, Call.core, hd]
                  · rw [hname hc]
                    rfl
              · simp only [hv, ↓reduceIte]
                rcases env.close with _ | m5
                · refine ⟨?_, rfl, rfl, rfl, rfl, rfl, rfl, rfl, fun _ => rfl⟩
                  simp [closeAfterError, failed, Outcome.coreCalls, Call.core, hd]
                · refine ⟨?_, rfl, rfl, rfl, rfl, rfl, rfl, rfl, fun _ => rfl⟩
                  simp [closeAfterError, failed, Outcome.coreCalls, Call.core, hd]
            · rcases env.close with _ | m5
              · refine ⟨?_, rfl, rfl, rfl, rfl, rfl, rfl, rfl, fun _ => rfl⟩
                simp [closeAfterError, failed, Outcome.coreCalls, Call.core, hd]
              · refine ⟨?_, rfl, rfl, rfl, rfl, rfl, rfl, rfl, fun _ => rfl⟩
                simp [closeAfterError, failed, Outcome.coreCalls, Call.core, hd]
          · rcases env.close with _ | m5 <;>
              exact ⟨rfl, rfl, rfl, rfl, rfl, rfl, rfl, rfl, fun _ => rfl⟩
        · rcases env.close with _ | m5 <;>
            exact ⟨rfl, rfl, rfl, rfl, rfl, rfl, rfl, rfl, fun _ => rfl⟩
      · exact ⟨rfl, rfl, rfl, rfl, rfl, rfl, rfl, rfl, fun _ => rfl⟩

/-- Witness of C9 amended on `{"html": "<h1>Hi</h1>", "filename": "report.pdf"}`
with a renderer whose `page.pdf` throws: same calls, same status 500. -/
theorem handlers_agree_unless_null_options_witness :
    reqNamed.options ≠ some JVal.null ∧
    (run (convertIndex { envOk with pdf := .throws "Printing failed" } reqNamed)).coreCalls =
      (run (convertServer { envOk with pdf := .throws "Printing failed" } reqNamed)).coreCalls ∧
    (run (convertIndex { envOk with pdf := .throws "Printing failed" } reqNamed)).status =
      some 500 ∧
    (run (convertServer { envOk with pdf := .throws "Printing failed" } reqNamed)).status =
      some 500 ∧
    (run (convertIndex envOk reqNamed)).header "Content-Disposition" =
      (run (convertServer envOk reqNamed)).header "Content-Disposition" :=
  have hne : reqNamed.options ≠ some JVal.null := fun h => by cases h
  have h1 := handlers_agree_unless_null_options
    { envOk with pdf := .throws "Printing failed" } reqNamed hne
  have h2 := handlers_agree_unless_null_options envOk reqNamed hne
  ⟨hne, h1.1, rfl, h1.2.2.2.1.symm.trans rfl, h2.2.2.2.2.2.2.2.2 (Or.inl rfl)⟩

end HTML2PDF
